import Mathlib

/-!
Shallow embedding of the ReChange single-page application (src/App.tsx and
src/types.ts): the chat data model, the session/gallery state handlers, and
the send pipeline around the external `generateEditedImage` call.

Modelling conventions:
* TypeScript optional fields (`text?: string`) become `Option`.
* JavaScript string truthiness (`s || d`, `if (s)`) is modelled by
  `strTruthy`, which maps the empty string to `none`.
* `Date.now()` is modelled by explicit time parameters (`Nat`): one for each
  synchronous block of the handler (all `Date.now()` calls before the `await`
  share `tSend`, all calls after it share `tResp`, the deferred `setTimeout`
  callback uses `tTo`).  Nothing in the claims distinguishes successive
  millisecond reads inside one synchronous block.
* The browser `File` object inside `ImageFile` is opaque to all the logic the
  claims touch and is omitted.
* The external service functions (`generateEditedImage`,
  `extractBase64FromDataUrl`, both imported from services/geminiService,
  which is not part of the core) are parameters of the handler.
-/

namespace ReChange

/-- From `types.ts`: the role of a chat message, either user or model. -/
inductive Role where
  | user
  | model
deriving Repr, DecidableEq

/-- From `types.ts`: `Message`. -/
structure Message where
  id : String
  role : Role
  text : Option String := none
  imageUrl : Option String := none
  originalImageUrl : Option String := none
  isThinking : Option Bool := none
  timestamp : Nat
deriving Repr, DecidableEq

/-- From `types.ts`: `ImageFile` (the opaque browser `File` handle omitted). -/
structure ImageFile where
  previewUrl : String
  base64 : String
  mimeType : String
deriving Repr, DecidableEq

/-- From `types.ts`: `GalleryItem`. -/
structure GalleryItem where
  id : String
  imageUrl : String
  prompt : String
  timestamp : Nat
  messageId : Option String := none
  sessionId : Option String := none
deriving Repr, DecidableEq

/-- From `types.ts`: `ChatSession`. -/
structure ChatSession where
  id : String
  title : String
  messages : List Message
  lastImage : Option ImageFile := none
  updatedAt : Nat
deriving Repr, DecidableEq

/-- JavaScript `String.prototype.trim`: strip leading and trailing
whitespace. -/
def jsTrim (s : String) : String :=
  ⟨((s.data.dropWhile Char.isWhitespace).reverse.dropWhile
      Char.isWhitespace).reverse⟩

/-- JavaScript truthiness on an optional string: `undefined` and `""` are
falsy.  `strTruthy o = some s` exactly when `o` holds a nonempty string. -/
def strTruthy : Option String → Option String
  | none => none
  | some s => if s = "" then none else some s

/-- Model of `Partial<ChatSession>`: each field optionally present.  An absent field
leaves the field of the session alone; a present field overrides it (for
`lastImage`, possibly with `undefined`, hence the nested `Option`). -/
structure SessionUpdates where
  id : Option String := none
  title : Option String := none
  messages : Option (List Message) := none
  lastImage : Option (Option ImageFile) := none
deriving Repr, DecidableEq

/-- The spread `{ ...s, ...updates, updatedAt: Date.now() }` of
`updateSession` (App.tsx line 178). -/
def applyUpdates (s : ChatSession) (u : SessionUpdates) (now : Nat) : ChatSession :=
  { id := u.id.getD s.id
    title := u.title.getD s.title
    messages := u.messages.getD s.messages
    lastImage := u.lastImage.getD s.lastImage
    updatedAt := now }

/-- Handler `updateSession` (App.tsx lines 177-179):
`prev.map(s => s.id === sessionId ? { ...s, ...updates, updatedAt: Date.now() } : s)`. -/
def updateSession (sessions : List ChatSession) (sessionId : String)
    (u : SessionUpdates) (now : Nat) : List ChatSession :=
  sessions.map (fun s => if s.id = sessionId then applyUpdates s u now else s)

/-- The welcome message recreated by `deleteSession` when the last session is
deleted (App.tsx lines 110-115). -/
def welcomeMessageAfterDelete (now : Nat) : Message :=
  { id := "welcome"
    role := Role.model
    text := some "Welcome to ReChange by Bhavya Tamboli. Start creating by uploading an image."
    timestamp := now }

/-- The fresh default session created by `deleteSession` when the last
session is deleted (App.tsx lines 106-117). -/
def defaultSessionAfterDelete (now : Nat) : ChatSession :=
  { id := toString now
    title := "New Project"
    messages := [welcomeMessageAfterDelete now]
    updatedAt := now }

/-- Handler `deleteSession` (App.tsx lines 98-120), returning the new session list
and the new current-session id. -/
def deleteSession (sessions : List ChatSession) (currentSessionId : String)
    (id : String) (now : Nat) : List ChatSession × String :=
  let newSessions := sessions.filter (fun s => !(s.id == id))
  match newSessions with
  | first :: _ =>
      if currentSessionId = id then (newSessions, first.id)
      else (newSessions, currentSessionId)
  | [] => ([defaultSessionAfterDelete now], toString now)

/-- Handler `deleteFromGallery` (App.tsx lines 123-150), returning the new gallery
and the new session list.  The guard
`itemToDelete && itemToDelete.sessionId && itemToDelete.messageId` is string
truthiness, hence `strTruthy`. -/
def deleteFromGallery (gallery : List GalleryItem) (sessions : List ChatSession)
    (itemId : String) : List GalleryItem × List ChatSession :=
  let itemToDelete := gallery.find? (fun g => g.id == itemId)
  let newGallery := gallery.filter (fun g => !(g.id == itemId))
  match itemToDelete with
  | none => (newGallery, sessions)
  | some item =>
      match strTruthy item.sessionId, strTruthy item.messageId with
      | some sid, some mid =>
          (newGallery, sessions.map (fun session =>
            if session.id = sid then
              { session with messages := session.messages.map (fun msg =>
                  if msg.id = mid then { msg with imageUrl := none } else msg) }
            else session))
      | _, _ => (newGallery, sessions)

/-- The argument list of `generateEditedImage`: prompt, base64 image data, mime
type (App.tsx lines 238-242). -/
structure ApiRequest where
  prompt : String
  base64 : String
  mimeType : String
deriving Repr, DecidableEq

/-- Outcome of one `generateEditedImage` call: either it resolves with an
optional text and an optional image URL, or it throws. -/
inductive ApiOutcome where
  | ok (text : Option String) (imageUrl : Option String)
  | error
deriving Repr, DecidableEq

/-- The data the `async` body of `handleSend` captures across its `await`:
the request it issued plus the closure variables used after the call
(App.tsx lines 212-242 capture `currentSessionId`, `updatedMessages`,
`prompt`, `selectedImage` and `currentSession.lastImage`). -/
structure InFlight where
  req : ApiRequest
  sessionId : String
  updatedMessages : List Message
  prompt : String
  selAtSend : Option ImageFile
  lastImageAtSend : Option ImageFile
deriving Repr, DecidableEq

/-- The state of the `App` component relevant to the claims, plus an `inflight`
slot recording the pending `generateEditedImage` call (in the source this is
the suspended `async` continuation; `isLoading` is its user-visible shadow). -/
structure UState where
  sessions : List ChatSession
  currentSessionId : String
  gallery : List GalleryItem
  inputText : String
  selectedImage : Option ImageFile
  isLoading : Bool
  inflight : Option InFlight
deriving Repr, DecidableEq

/-- Derived state (App.tsx line 44):
`sessions.find(s => s.id === currentSessionId) || sessions[0]`, `none` when
the session list is empty (the source would crash dereferencing it there). -/
def currentSession? (st : UState) : Option ChatSession :=
  (st.sessions.find? (fun s => s.id == st.currentSessionId)).orElse
    (fun _ => st.sessions.head?)

/-- The part of `handleSend` (App.tsx lines 181-242) that runs synchronously
before the `await`: the guard, the text-only branch (whose deferred
`setTimeout` update, lines 199-207, is applied here at time `tTo`), and the
API branch up to issuing the request.  Returns the new state together with
the request the invocation started, if any; in the API branch the
`inflight` slot of the state holds the pending call.  When `currentSession?` is `none`
(empty session list) the source throws a `TypeError` before mutating
anything; that is modelled as a no-op. -/
def handleSendStart (tSend tTo : Nat) (st : UState) : UState × Option InFlight :=
  match currentSession? st with
  | none => (st, none)
  | some cs =>
      let imageToUse := st.selectedImage.orElse (fun _ => cs.lastImage)
      if jsTrim st.inputText = "" ∧ imageToUse = none then (st, none)
      else
        match imageToUse with
        | none =>
            let userMsg : Message :=
              { id := toString tSend, role := Role.user, text := some st.inputText
                timestamp := tSend }
            let botMsg : Message :=
              { id := toString (tTo + 1), role := Role.model
                text := some "I need an image to start working. Please upload one first."
                timestamp := tTo }
            let st1 := { st with
              sessions := updateSession st.sessions st.currentSessionId
                { messages := some (cs.messages ++ [userMsg]) } tSend
              inputText := "" }
            ({ st1 with
              sessions := updateSession st1.sessions st.currentSessionId
                { messages := some (cs.messages ++ [userMsg, botMsg]) } tTo }, none)
        | some img =>
            let prompt := st.inputText
            let userMsg : Message :=
              { id := toString tSend, role := Role.user, text := some prompt
                originalImageUrl := st.selectedImage.map (fun s => s.previewUrl)
                timestamp := tSend }
            let updatedMessages := cs.messages ++ [userMsg]
            let newTitle :=
              if cs.messages.length ≤ 1 then
                if prompt.take 25 = "" then "Image Edit" else prompt.take 25
              else cs.title
            let req : ApiRequest :=
              { prompt := if prompt = "" then "Enhance this image" else prompt
                base64 := img.base64
                mimeType := img.mimeType }
            let f : InFlight :=
              { req := req, sessionId := st.currentSessionId
                updatedMessages := updatedMessages, prompt := prompt
                selAtSend := st.selectedImage, lastImageAtSend := cs.lastImage }
            ({ st with
              sessions := updateSession st.sessions st.currentSessionId
                { messages := some updatedMessages, title := some newTitle } tSend
              inputText := ""
              selectedImage := none
              isLoading := true
              inflight := some f }, some f)

/-- The part of `handleSend` after the `await` resolves or throws
(App.tsx lines 244-297), applied to the pending call recorded in `inflight`:
response handling, session-context propagation, gallery insertion, the
catch-branch error message, and the `finally` reset of `isLoading`.
`extractB64` stands for `extractBase64FromDataUrl` from the external
service module. -/
def handleSendFinish (outcome : ApiOutcome) (extractB64 : String → String)
    (tResp : Nat) (st : UState) : UState :=
  match st.inflight with
  | none => st
  | some f =>
      match outcome with
      | ApiOutcome.error =>
          let errMsg : Message :=
            { id := toString (tResp + 1), role := Role.model
              text := some "Something went wrong. Please try again."
              timestamp := tResp }
          { st with
            sessions := updateSession st.sessions f.sessionId
              { messages := some (f.updatedMessages ++ [errMsg]) } tResp
            isLoading := false
            inflight := none }
      | ApiOutcome.ok text imageUrl =>
          let responseMsgId := toString (tResp + 1)
          let modelMsg : Message :=
            { id := responseMsgId, role := Role.model
              text := some ((strTruthy text).getD "Here is your result.")
              imageUrl := strTruthy imageUrl
              timestamp := tResp }
          match strTruthy imageUrl with
          | some url =>
              let nextImageContext : Option ImageFile :=
                some { previewUrl := url, base64 := extractB64 url
                       mimeType := "image/png" }
              let item : GalleryItem :=
                { id := toString tResp, imageUrl := url, prompt := f.prompt
                  timestamp := tResp, messageId := some responseMsgId
                  sessionId := some f.sessionId }
              { st with
                gallery := item :: st.gallery
                sessions := updateSession st.sessions f.sessionId
                  { messages := some (f.updatedMessages ++ [modelMsg])
                    lastImage := some nextImageContext } tResp
                isLoading := false
                inflight := none }
          | none =>
              let nextImageContext : Option ImageFile :=
                match f.selAtSend with
                | some sel => some sel
                | none => f.lastImageAtSend
              { st with
                sessions := updateSession st.sessions f.sessionId
                  { messages := some (f.updatedMessages ++ [modelMsg])
                    lastImage := some nextImageContext } tResp
                isLoading := false
                inflight := none }

/-- One whole `handleSend` invocation run to completion with no interleaved
events: the synchronous start, then — when a call was issued — the awaited
outcome `api req` applied by the post-`await` code.  Also returns the list
of `generateEditedImage` requests the invocation made. -/
def handleSend (api : ApiRequest → ApiOutcome) (extractB64 : String → String)
    (tSend tTo tResp : Nat) (st : UState) : UState × List ApiRequest :=
  match handleSendStart tSend tTo st with
  | (st1, some f) => (handleSendFinish (api f.req) extractB64 tResp st1, [f.req])
  | (st1, none) => (st1, [])

/-- The welcome message of the initial session (App.tsx lines 21-26). -/
def initWelcomeMessage (t0 : Nat) : Message :=
  { id := "welcome"
    role := Role.model
    text := some "Welcome to ReChange by Bhavya Tamboli. I\x27m powered by the advanced Nano Banana model. Upload an image to start transforming your fashion or photos instantly."
    timestamp := t0 }

/-- The initial component state (App.tsx lines 17-36). -/
def initState (t0 : Nat) : UState :=
  { sessions := [{ id := "default", title := "New Project"
                   messages := [initWelcomeMessage t0], updatedAt := t0 }]
    currentSessionId := "default"
    gallery := []
    inputText := ""
    selectedImage := none
    isLoading := false
    inflight := none }

/-- The session created by `createNewSession` (App.tsx lines 78-84). -/
def newSessionRecord (now : Nat) : ChatSession :=
  { id := toString now, title := "Untitled Project", messages := []
    updatedAt := now }

/-- The user-interface events of `App`; each carries the external data of its
handler (typed text, decoded upload, `Date.now()` readings, API outcome). -/
inductive Event where
  | setInput (s : String)
  | pickImage (img : ImageFile)
  | removeImage
  | clickSend (tSend tTo : Nat)
  | apiReturn (outcome : ApiOutcome) (tResp : Nat)
  | newSession (now : Nat)
  | switchTo (id : String)
  | delSession (id : String) (now : Nat)
  | delGallery (id : String)

/-- One step of the single-threaded event loop.  `none` means the event is
not enabled: the textarea, the upload button and the send button are rendered
with `disabled={isLoading}` (App.tsx lines 550, 576, 581), so their events
fire only when `isLoading` is false, and an API outcome can arrive only for a
pending call.  The sidebar handlers (`createNewSession`, `switchSession`,
`deleteSession`, `deleteFromGallery`) carry no `disabled` guard. -/
def step (extractB64 : String → String) (st : UState) (e : Event) : Option UState :=
  match e with
  | Event.setInput s =>
      if st.isLoading then none else some { st with inputText := s }
  | Event.pickImage img =>
      if st.isLoading then none else some { st with selectedImage := some img }
  | Event.removeImage => some { st with selectedImage := none }
  | Event.clickSend tSend tTo =>
      if st.isLoading then none else some (handleSendStart tSend tTo st).1
  | Event.apiReturn outcome tResp =>
      if st.inflight.isSome then
        some (handleSendFinish outcome extractB64 tResp st)
      else none
  | Event.newSession now =>
      some { st with sessions := newSessionRecord now :: st.sessions
                     currentSessionId := toString now
                     selectedImage := none }
  | Event.switchTo id => some { st with currentSessionId := id }
  | Event.delSession id now =>
      let r := deleteSession st.sessions st.currentSessionId id now
      some { st with sessions := r.1, currentSessionId := r.2 }
  | Event.delGallery id =>
      let r := deleteFromGallery st.gallery st.sessions id
      some { st with gallery := r.1, sessions := r.2 }

/-- States reachable from the initial state by enabled events. -/
inductive Reachable (extractB64 : String → String) : UState → Prop where
  | init (t0 : Nat) : Reachable extractB64 (initState t0)
  | next {st st' : UState} {e : Event} : Reachable extractB64 st →
      step extractB64 st e = some st' → Reachable extractB64 st'

/-- Abbreviation for the request `handleSend` issues (App.tsx lines 238-242). -/
def sendRequest (st : UState) (img : ImageFile) : ApiRequest :=
  { prompt := if st.inputText = "" then "Enhance this image" else st.inputText
    base64 := img.base64
    mimeType := img.mimeType }

/-- Abbreviation for the user message `handleSend` appends in its API branch
(App.tsx lines 213-219). -/
def sendUserMessage (st : UState) (tS : Nat) : Message :=
  { id := toString tS
    role := Role.user
    text := some st.inputText
    originalImageUrl := st.selectedImage.map (fun s => s.previewUrl)
    timestamp := tS }

/-- Abbreviation for the session title `handleSend` sets (App.tsx
lines 225-228). -/
def sendTitle (st : UState) (cs : ChatSession) : String :=
  if cs.messages.length ≤ 1 then
    if st.inputText.take 25 = "" then "Image Edit" else st.inputText.take 25
  else cs.title

/-! ### Concrete fixtures used by the witness theorems -/

/-- A concrete uploaded image. -/
def imgW : ImageFile :=
  { previewUrl := "blob:w", base64 := "QUJD", mimeType := "image/jpeg" }

/-- A concrete session with no messages and no image context. -/
def sessW : ChatSession :=
  { id := "default", title := "New Project", messages := [], updatedAt := 0 }

/-- A concrete state about to send the prompt "make it red" with a fresh
upload attached. -/
def stW : UState :=
  { sessions := [sessW], currentSessionId := "default", gallery := []
    inputText := "make it red", selectedImage := some imgW
    isLoading := false, inflight := none }

/-- A concrete idle state with nothing to send. -/
def stE : UState :=
  { sessions := [sessW], currentSessionId := "default", gallery := []
    inputText := "", selectedImage := none, isLoading := false
    inflight := none }

/-- A stub API that always succeeds with a text and an image URL. -/
def apiOkW : ApiRequest → ApiOutcome :=
  fun _ => ApiOutcome.ok (some "Done") (some "data:image/png;base64,Wlla")

/-- A stub API that always throws. -/
def apiErrW : ApiRequest → ApiOutcome :=
  fun _ => ApiOutcome.error

/-- A stub base64 extractor. -/
def exW : String → String := fun s => s

/-- A concrete model message carrying an image. -/
def msgX : Message :=
  { id := "m1", role := Role.model, text := some "t", imageUrl := some "u"
    timestamp := 1 }

/-- A concrete session holding `msgX`. -/
def sessX : ChatSession :=
  { id := "s1", title := "T", messages := [msgX], updatedAt := 0 }

/-- A concrete gallery item linked to `sessX` and `msgX`. -/
def itemW : GalleryItem :=
  { id := "g1", imageUrl := "u", prompt := "p", timestamp := 5
    messageId := some "m1", sessionId := some "s1" }

/-! ### Helper lemmas -/

lemma currentSession?_of_find? {st : UState} {cs : ChatSession}
    (h : st.sessions.find? (fun s => s.id == st.currentSessionId) = some cs) :
    currentSession? st = some cs := by
  simp [currentSession?, h]

lemma applyUpdates_id {u : SessionUpdates} (h : u.id = none)
    (s : ChatSession) (now : Nat) : (applyUpdates s u now).id = s.id := by
  simp [applyUpdates, h]

lemma find?_updateSession (sessions : List ChatSession) (sid : String)
    (u : SessionUpdates) (now : Nat) (hid : u.id = none) :
    (updateSession sessions sid u now).find? (fun s => s.id == sid) =
      (sessions.find? (fun s => s.id == sid)).map (fun s => applyUpdates s u now) := by
  induction sessions with
  | nil => rfl
  | cons a l ih =>
      by_cases h : a.id = sid
      · have hb : ((applyUpdates a u now).id == sid) = true := by
          simp [applyUpdates_id hid, h]
        have hb' : (a.id == sid) = true := by simp [h]
        simp only [updateSession, List.map_cons, if_pos h, List.find?, hb, hb']
        rfl
      · have hb : (a.id == sid) = false := by simp [h]
        simp only [updateSession, List.map_cons, if_neg h, List.find?, hb]
        simpa only [updateSession] using ih

lemma handleSendStart_api (tS tT : Nat) (st : UState) (cs : ChatSession)
    (img : ImageFile)
    (hfind : st.sessions.find? (fun s => s.id == st.currentSessionId) = some cs)
    (himg : st.selectedImage.orElse (fun _ => cs.lastImage) = some img) :
    handleSendStart tS tT st =
      ({ st with
          sessions := updateSession st.sessions st.currentSessionId
            { messages := some (cs.messages ++ [sendUserMessage st tS])
              title := some (sendTitle st cs) } tS
          inputText := ""
          selectedImage := none
          isLoading := true
          inflight := some
            { req := sendRequest st img
              sessionId := st.currentSessionId
              updatedMessages := cs.messages ++ [sendUserMessage st tS]
              prompt := st.inputText
              selAtSend := st.selectedImage
              lastImageAtSend := cs.lastImage } },
        some
          { req := sendRequest st img
            sessionId := st.currentSessionId
            updatedMessages := cs.messages ++ [sendUserMessage st tS]
            prompt := st.inputText
            selAtSend := st.selectedImage
            lastImageAtSend := cs.lastImage }) := by
  have hcs : currentSession? st = some cs := currentSession?_of_find? hfind
  unfold handleSendStart
  rw [hcs]
  simp only [himg, sendRequest, sendUserMessage, sendTitle]
  simp

lemma handleSend_ok_some (api : ApiRequest → ApiOutcome) (ex : String → String)
    (tS tT tR : Nat) (st : UState) (cs : ChatSession) (img : ImageFile)
    (text imageUrl : Option String) (url : String)
    (hfind : st.sessions.find? (fun s => s.id == st.currentSessionId) = some cs)
    (himg : st.selectedImage.orElse (fun _ => cs.lastImage) = some img)
    (hapi : api (sendRequest st img) = ApiOutcome.ok text imageUrl)
    (hurl : strTruthy imageUrl = some url) :
    handleSend api ex tS tT tR st =
      ({ st with
          sessions := updateSession
            (updateSession st.sessions st.currentSessionId
              { messages := some (cs.messages ++ [sendUserMessage st tS])
                title := some (sendTitle st cs) } tS)
            st.currentSessionId
            { messages := some ((cs.messages ++ [sendUserMessage st tS]) ++
                [{ id := toString (tR + 1), role := Role.model
                   text := some ((strTruthy text).getD "Here is your result.")
                   imageUrl := strTruthy imageUrl
                   timestamp := tR }])
              lastImage := some (some { previewUrl := url, base64 := ex url
                                        mimeType := "image/png" }) } tR
          gallery := { id := toString tR, imageUrl := url, prompt := st.inputText
                       timestamp := tR, messageId := some (toString (tR + 1))
                       sessionId := some st.currentSessionId } :: st.gallery
          inputText := ""
          selectedImage := none
          isLoading := false
          inflight := none },
        [sendRequest st img]) := by
  unfold handleSend
  rw [handleSendStart_api tS tT st cs img hfind himg]
  unfold handleSendFinish
  simp only [hapi, hurl]

lemma handleSend_ok_none (api : ApiRequest → ApiOutcome) (ex : String → String)
    (tS tT tR : Nat) (st : UState) (cs : ChatSession) (img : ImageFile)
    (text imageUrl : Option String)
    (hfind : st.sessions.find? (fun s => s.id == st.currentSessionId) = some cs)
    (himg : st.selectedImage.orElse (fun _ => cs.lastImage) = some img)
    (hapi : api (sendRequest st img) = ApiOutcome.ok text imageUrl)
    (hurl : strTruthy imageUrl = none) :
    handleSend api ex tS tT tR st =
      ({ st with
          sessions := updateSession
            (updateSession st.sessions st.currentSessionId
              { messages := some (cs.messages ++ [sendUserMessage st tS])
                title := some (sendTitle st cs) } tS)
            st.currentSessionId
            { messages := some ((cs.messages ++ [sendUserMessage st tS]) ++
                [{ id := toString (tR + 1), role := Role.model
                   text := some ((strTruthy text).getD "Here is your result.")
                   imageUrl := strTruthy imageUrl
                   timestamp := tR }])
              lastImage := some
                (match st.selectedImage with
                 | some sel => some sel
                 | none => cs.lastImage) } tR
          inputText := ""
          selectedImage := none
          isLoading := false
          inflight := none },
        [sendRequest st img]) := by
  unfold handleSend
  rw [handleSendStart_api tS tT st cs img hfind himg]
  unfold handleSendFinish
  simp only [hapi, hurl]

lemma handleSend_error (api : ApiRequest → ApiOutcome) (ex : String → String)
    (tS tT tR : Nat) (st : UState) (cs : ChatSession) (img : ImageFile)
    (hfind : st.sessions.find? (fun s => s.id == st.currentSessionId) = some cs)
    (himg : st.selectedImage.orElse (fun _ => cs.lastImage) = some img)
    (hapi : api (sendRequest st img) = ApiOutcome.error) :
    handleSend api ex tS tT tR st =
      ({ st with
          sessions := updateSession
            (updateSession st.sessions st.currentSessionId
              { messages := some (cs.messages ++ [sendUserMessage st tS])
                title := some (sendTitle st cs) } tS)
            st.currentSessionId
            { messages := some ((cs.messages ++ [sendUserMessage st tS]) ++
                [{ id := toString (tR + 1), role := Role.model
                   text := some "Something went wrong. Please try again."
                   timestamp := tR }]) } tR
          inputText := ""
          selectedImage := none
          isLoading := false
          inflight := none },
        [sendRequest st img]) := by
  unfold handleSend
  rw [handleSendStart_api tS tT st cs img hfind himg]
  unfold handleSendFinish
  simp only [hapi]

lemma find?_updateSession₂ (S : List ChatSession) (sid : String)
    (u1 u2 : SessionUpdates) (t1 t2 : Nat) (cs : ChatSession)
    (h1 : u1.id = none) (h2 : u2.id = none)
    (hfind : S.find? (fun s => s.id == sid) = some cs) :
    (updateSession (updateSession S sid u1 t1) sid u2 t2).find?
        (fun s => s.id == sid) =
      some (applyUpdates (applyUpdates cs u1 t1) u2 t2) := by
  rw [find?_updateSession _ _ _ _ h2, find?_updateSession _ _ _ _ h1, hfind]
  rfl

/-! ### Claim theorems -/

/-- C10: when the trimmed input text is empty, no new image is selected and
the current session has no `lastImage` context, `handleSend` returns
immediately as a no-op: the whole state (sessions, gallery, input text,
selected image, `isLoading`) is unchanged and no `generateEditedImage`
request is made. -/
theorem handleSend_noop_when_nothing_to_send
    (api : ApiRequest → ApiOutcome) (ex : String → String) (tS tT tR : Nat)
    (st : UState) (cs : ChatSession)
    (hfind : st.sessions.find? (fun s => s.id == st.currentSessionId) = some cs)
    (htrim : jsTrim st.inputText = "")
    (hsel : st.selectedImage = none)
    (hlast : cs.lastImage = none) :
    handleSend api ex tS tT tR st = (st, []) := by
  have hcs : currentSession? st = some cs := currentSession?_of_find? hfind
  unfold handleSend handleSendStart
  rw [hcs]
  simp [hsel, hlast, htrim]

/-- Witness for C10 at a concrete idle state. -/
theorem handleSend_noop_when_nothing_to_send_witness :
    handleSend apiErrW exW 1 2 3 stE = (stE, []) :=
  handleSend_noop_when_nothing_to_send apiErrW exW 1 2 3 stE sessW
    rfl (by decide) rfl rfl

/-- C7: every invocation of `handleSend` that reaches the API calls
`generateEditedImage` exactly once, with the entered text as prompt
(defaulted to "Enhance this image" when the entered text is empty), the
base64 data of the image being used and the mime type of that image. -/
theorem handleSend_api_arguments
    (api : ApiRequest → ApiOutcome) (ex : String → String) (tS tT tR : Nat)
    (st : UState) (cs : ChatSession) (img : ImageFile)
    (hfind : st.sessions.find? (fun s => s.id == st.currentSessionId) = some cs)
    (himg : st.selectedImage.orElse (fun _ => cs.lastImage) = some img) :
    (handleSend api ex tS tT tR st).2 =
      [{ prompt := if st.inputText = "" then "Enhance this image" else st.inputText
         base64 := img.base64
         mimeType := img.mimeType }] := by
  unfold handleSend
  rw [handleSendStart_api tS tT st cs img hfind himg]
  rfl

/-- Witness for C7 at a concrete send with a fresh upload. -/
theorem handleSend_api_arguments_witness :
    (handleSend apiOkW exW 1 2 3 stW).2 =
      [{ prompt := if stW.inputText = "" then "Enhance this image" else stW.inputText
         base64 := imgW.base64
         mimeType := imgW.mimeType }] :=
  handleSend_api_arguments apiOkW exW 1 2 3 stW sessW imgW rfl rfl

/-- C3: a send with an available image that succeeds appends to the current
session exactly the user message followed by one model message carrying the
returned text of the API (defaulted to "Here is your result." when absent) and
the returned image URL, with `generateEditedImage` called exactly once. -/
theorem handleSend_success_appends_messages
    (api : ApiRequest → ApiOutcome) (ex : String → String) (tS tT tR : Nat)
    (st : UState) (cs : ChatSession) (img : ImageFile)
    (text imageUrl : Option String)
    (hfind : st.sessions.find? (fun s => s.id == st.currentSessionId) = some cs)
    (himg : st.selectedImage.orElse (fun _ => cs.lastImage) = some img)
    (hapi : api (sendRequest st img) = ApiOutcome.ok text imageUrl) :
    ∃ csF : ChatSession,
      (handleSend api ex tS tT tR st).1.sessions.find?
          (fun s => s.id == st.currentSessionId) = some csF ∧
      csF.messages = cs.messages ++
        [sendUserMessage st tS,
         { id := toString (tR + 1), role := Role.model
           text := some ((strTruthy text).getD "Here is your result.")
           imageUrl := strTruthy imageUrl
           timestamp := tR }] ∧
      (handleSend api ex tS tT tR st).2 = [sendRequest st img] := by
  cases hurl : strTruthy imageUrl with
  | some url =>
      rw [handleSend_ok_some api ex tS tT tR st cs img text imageUrl url
        hfind himg hapi hurl]
      exact ⟨_, find?_updateSession₂ _ _ _ _ _ _ cs rfl rfl hfind,
        by simp [applyUpdates, hurl], rfl⟩
  | none =>
      rw [handleSend_ok_none api ex tS tT tR st cs img text imageUrl
        hfind himg hapi hurl]
      exact ⟨_, find?_updateSession₂ _ _ _ _ _ _ cs rfl rfl hfind,
        by simp [applyUpdates, hurl], rfl⟩

/-- Witness for C3 at a concrete successful send. -/
theorem handleSend_success_appends_messages_witness :
    ∃ csF : ChatSession,
      (handleSend apiOkW exW 1 2 3 stW).1.sessions.find?
          (fun s => s.id == stW.currentSessionId) = some csF ∧
      csF.messages = sessW.messages ++
        [sendUserMessage stW 1,
         { id := toString (3 + 1), role := Role.model
           text := some ((strTruthy (some "Done")).getD "Here is your result.")
           imageUrl := strTruthy (some "data:image/png;base64,Wlla")
           timestamp := 3 }] ∧
      (handleSend apiOkW exW 1 2 3 stW).2 = [sendRequest stW imgW] :=
  handleSend_success_appends_messages apiOkW exW 1 2 3 stW sessW imgW
    (some "Done") (some "data:image/png;base64,Wlla") rfl rfl rfl

/-- C1: after a send that reaches the API and succeeds, the current
`lastImage` of the current session is the image returned by `generateEditedImage` when
one is returned; otherwise the newly uploaded selected image when a new
upload was attached to this send; otherwise unchanged from before the
send. -/
theorem handleSend_lastImage_propagation
    (api : ApiRequest → ApiOutcome) (ex : String → String) (tS tT tR : Nat)
    (st : UState) (cs : ChatSession) (img : ImageFile)
    (text imageUrl : Option String)
    (hfind : st.sessions.find? (fun s => s.id == st.currentSessionId) = some cs)
    (himg : st.selectedImage.orElse (fun _ => cs.lastImage) = some img)
    (hapi : api (sendRequest st img) = ApiOutcome.ok text imageUrl) :
    ∃ csF : ChatSession,
      (handleSend api ex tS tT tR st).1.sessions.find?
          (fun s => s.id == st.currentSessionId) = some csF ∧
      csF.lastImage =
        match strTruthy imageUrl with
        | some url => some { previewUrl := url, base64 := ex url
                             mimeType := "image/png" }
        | none =>
            match st.selectedImage with
            | some sel => some sel
            | none => cs.lastImage := by
  cases hurl : strTruthy imageUrl with
  | some url =>
      rw [handleSend_ok_some api ex tS tT tR st cs img text imageUrl url
        hfind himg hapi hurl]
      exact ⟨_, find?_updateSession₂ _ _ _ _ _ _ cs rfl rfl hfind,
        by simp [applyUpdates, hurl]⟩
  | none =>
      rw [handleSend_ok_none api ex tS tT tR st cs img text imageUrl
        hfind himg hapi hurl]
      exact ⟨_, find?_updateSession₂ _ _ _ _ _ _ cs rfl rfl hfind,
        by simp [applyUpdates, hurl]⟩

/-- Witness for C1 at a concrete successful send with a returned image. -/
theorem handleSend_lastImage_propagation_witness :
    ∃ csF : ChatSession,
      (handleSend apiOkW exW 1 2 3 stW).1.sessions.find?
          (fun s => s.id == stW.currentSessionId) = some csF ∧
      csF.lastImage =
        match strTruthy (some "data:image/png;base64,Wlla") with
        | some url => some { previewUrl := url, base64 := exW url
                             mimeType := "image/png" }
        | none =>
            match stW.selectedImage with
            | some sel => some sel
            | none => sessW.lastImage :=
  handleSend_lastImage_propagation apiOkW exW 1 2 3 stW sessW imgW
    (some "Done") (some "data:image/png;base64,Wlla") rfl rfl rfl

/-- C2: when `generateEditedImage` throws, the exception is caught and the
message list of the current session afterwards is the pre-send list with the
message of the user appended followed by one model message with the generic text
"Something went wrong. Please try again."; the API is called exactly once
(no retry). -/
theorem handleSend_error_appends_generic_message
    (api : ApiRequest → ApiOutcome) (ex : String → String) (tS tT tR : Nat)
    (st : UState) (cs : ChatSession) (img : ImageFile)
    (hfind : st.sessions.find? (fun s => s.id == st.currentSessionId) = some cs)
    (himg : st.selectedImage.orElse (fun _ => cs.lastImage) = some img)
    (hapi : api (sendRequest st img) = ApiOutcome.error) :
    (handleSend api ex tS tT tR st).2 = [sendRequest st img] ∧
    ∃ csF : ChatSession,
      (handleSend api ex tS tT tR st).1.sessions.find?
          (fun s => s.id == st.currentSessionId) = some csF ∧
      csF.messages = cs.messages ++
        [sendUserMessage st tS,
         { id := toString (tR + 1), role := Role.model
           text := some "Something went wrong. Please try again."
           timestamp := tR }] := by
  rw [handleSend_error api ex tS tT tR st cs img hfind himg hapi]
  exact ⟨rfl, _, find?_updateSession₂ _ _ _ _ _ _ cs rfl rfl hfind,
    by simp [applyUpdates]⟩

/-- Witness for C2 at a concrete failing send. -/
theorem handleSend_error_appends_generic_message_witness :
    (handleSend apiErrW exW 1 2 3 stW).2 = [sendRequest stW imgW] ∧
    ∃ csF : ChatSession,
      (handleSend apiErrW exW 1 2 3 stW).1.sessions.find?
          (fun s => s.id == stW.currentSessionId) = some csF ∧
      csF.messages = sessW.messages ++
        [sendUserMessage stW 1,
         { id := toString (3 + 1), role := Role.model
           text := some "Something went wrong. Please try again."
           timestamp := 3 }] :=
  handleSend_error_appends_generic_message apiErrW exW 1 2 3 stW sessW imgW
    rfl rfl rfl

/-- C4: the gallery item added by a send whose API call returns an image
carries `messageId` equal to the id of the model message appended to the
session by that same send, and `sessionId` equal to the id of the session
current during that send. -/
theorem gallery_item_links
    (api : ApiRequest → ApiOutcome) (ex : String → String) (tS tT tR : Nat)
    (st : UState) (cs : ChatSession) (img : ImageFile)
    (text imageUrl : Option String) (url : String)
    (hfind : st.sessions.find? (fun s => s.id == st.currentSessionId) = some cs)
    (himg : st.selectedImage.orElse (fun _ => cs.lastImage) = some img)
    (hapi : api (sendRequest st img) = ApiOutcome.ok text imageUrl)
    (hurl : strTruthy imageUrl = some url) :
    ∃ (csF : ChatSession) (modelMsg : Message),
      (handleSend api ex tS tT tR st).1.gallery =
        { id := toString tR, imageUrl := url, prompt := st.inputText
          timestamp := tR, messageId := some modelMsg.id
          sessionId := some st.currentSessionId } :: st.gallery ∧
      (handleSend api ex tS tT tR st).1.sessions.find?
          (fun s => s.id == st.currentSessionId) = some csF ∧
      csF.messages.getLast? = some modelMsg ∧
      modelMsg.role = Role.model := by
  rw [handleSend_ok_some api ex tS tT tR st cs img text imageUrl url
    hfind himg hapi hurl]
  refine ⟨_,
    { id := toString (tR + 1), role := Role.model
      text := some ((strTruthy text).getD "Here is your result.")
      imageUrl := strTruthy imageUrl
      timestamp := tR }, rfl,
    find?_updateSession₂ _ _ _ _ _ _ cs rfl rfl hfind, ?_, rfl⟩
  simp [applyUpdates]

/-- Witness for C4 at a concrete successful send with a returned image. -/
theorem gallery_item_links_witness :
    ∃ (csF : ChatSession) (modelMsg : Message),
      (handleSend apiOkW exW 1 2 3 stW).1.gallery =
        { id := toString 3, imageUrl := "data:image/png;base64,Wlla"
          prompt := stW.inputText, timestamp := 3
          messageId := some modelMsg.id
          sessionId := some stW.currentSessionId } :: stW.gallery ∧
      (handleSend apiOkW exW 1 2 3 stW).1.sessions.find?
          (fun s => s.id == stW.currentSessionId) = some csF ∧
      csF.messages.getLast? = some modelMsg ∧
      modelMsg.role = Role.model :=
  gallery_item_links apiOkW exW 1 2 3 stW sessW imgW
    (some "Done") (some "data:image/png;base64,Wlla")
    "data:image/png;base64,Wlla" rfl rfl rfl (by decide)

/-- C5: `updateSession` preserves the list length and rewrites, at each
position, exactly the sessions whose id matches — merging the given fields
and stamping `updatedAt` with the current time — while every session with a
different id stays the same record at the same position. -/
theorem updateSession_frame (sessions : List ChatSession) (sessionId : String)
    (u : SessionUpdates) (now : Nat) :
    (updateSession sessions sessionId u now).length = sessions.length ∧
    ∀ i : Nat, (updateSession sessions sessionId u now)[i]? =
      (sessions[i]?).map (fun s =>
        if s.id = sessionId then applyUpdates s u now else s) := by
  refine ⟨by simp [updateSession], fun i => ?_⟩
  simp [updateSession]

/-- C9: after `deleteSession` the session list is nonempty and the current
session id resolves to a member; if the deleted session was current the
first remaining session becomes current, and if nothing remains a fresh
default session containing a welcome model message is created and made
current. -/
theorem deleteSession_never_empty (sessions : List ChatSession)
    (currentSessionId id : String) (now : Nat)
    (hcur : ∃ s ∈ sessions, s.id = currentSessionId) :
    (deleteSession sessions currentSessionId id now).1 ≠ [] ∧
    (∃ s ∈ (deleteSession sessions currentSessionId id now).1,
        s.id = (deleteSession sessions currentSessionId id now).2) ∧
    (∀ first rest,
        sessions.filter (fun s => !(s.id == id)) = first :: rest →
        currentSessionId = id →
        (deleteSession sessions currentSessionId id now).2 = first.id) ∧
    (sessions.filter (fun s => !(s.id == id)) = [] →
        (deleteSession sessions currentSessionId id now).1 =
            [defaultSessionAfterDelete now] ∧
        (deleteSession sessions currentSessionId id now).2 = toString now) := by
  obtain ⟨s0, hs0, hid0⟩ := hcur
  cases hfil : sessions.filter (fun s => !(s.id == id)) with
  | nil =>
      have hr : deleteSession sessions currentSessionId id now =
          ([defaultSessionAfterDelete now], toString now) := by
        simp [deleteSession, hfil]
      rw [hr]
      refine ⟨by simp, ⟨defaultSessionAfterDelete now, by simp, rfl⟩, ?_, ?_⟩
      · intro first rest hcons
        cases hcons
      · intro _
        exact ⟨rfl, rfl⟩
  | cons a l =>
      by_cases h : currentSessionId = id
      · have hr : deleteSession sessions currentSessionId id now =
            (a :: l, a.id) := by
          simp [deleteSession, hfil, h]
        rw [hr]
        refine ⟨by simp, ⟨a, by simp, rfl⟩, ?_, ?_⟩
        · intro first rest hcons _
          injection hcons with h1 _
          rw [h1]
        · intro h0
          cases h0
      · have hr : deleteSession sessions currentSessionId id now =
            (a :: l, currentSessionId) := by
          simp [deleteSession, hfil, h]
        rw [hr]
        have hmem : s0 ∈ a :: l := by
          rw [← hfil]
          exact List.mem_filter.2 ⟨hs0, by simp [hid0, h]⟩
        refine ⟨by simp, ⟨s0, hmem, hid0⟩, ?_, ?_⟩
        · intro first rest _ hcurid
          exact absurd hcurid h
        · intro h0
          cases h0

/-- Witness for C9: deleting the only session recreates a default session
and makes it current. -/
theorem deleteSession_never_empty_witness :
    (deleteSession [sessW] "default" "default" 7).1 ≠ [] ∧
    (∃ s ∈ (deleteSession [sessW] "default" "default" 7).1,
        s.id = (deleteSession [sessW] "default" "default" 7).2) ∧
    (∀ first rest,
        ([sessW].filter (fun s => !(s.id == "default"))) = first :: rest →
        "default" = "default" →
        (deleteSession [sessW] "default" "default" 7).2 = first.id) ∧
    (([sessW].filter (fun s => !(s.id == "default"))) = [] →
        (deleteSession [sessW] "default" "default" 7).1 =
            [defaultSessionAfterDelete 7] ∧
        (deleteSession [sessW] "default" "default" 7).2 = toString 7) :=
  deleteSession_never_empty [sessW] "default" "default" 7
    ⟨sessW, by simp, rfl⟩

/-- C8: `deleteFromGallery` removes exactly the item with the given id from
the gallery (every other item survives, in order); when the removed item
carries both links it blanks `imageUrl` on exactly the linked message of the
linked session, leaving the other fields of that message, every other message and
every other session untouched; an item without both links changes the
gallery only. -/
theorem deleteFromGallery_frame (gallery : List GalleryItem)
    (sessions : List ChatSession) (itemId : String) :
    (∀ g ∈ (deleteFromGallery gallery sessions itemId).1,
        g ∈ gallery ∧ g.id ≠ itemId) ∧
    (∀ g ∈ gallery, g.id ≠ itemId →
        g ∈ (deleteFromGallery gallery sessions itemId).1) ∧
    List.Sublist (deleteFromGallery gallery sessions itemId).1 gallery ∧
    (∀ item, gallery.find? (fun g => g.id == itemId) = some item →
      ∀ sid mid, strTruthy item.sessionId = some sid →
        strTruthy item.messageId = some mid →
        (deleteFromGallery gallery sessions itemId).2.length =
            sessions.length ∧
        (∀ i : Nat, ∀ s : ChatSession, sessions[i]? = some s → s.id ≠ sid →
            (deleteFromGallery gallery sessions itemId).2[i]? = some s) ∧
        (∀ i : Nat, ∀ s : ChatSession, sessions[i]? = some s → s.id = sid →
            (deleteFromGallery gallery sessions itemId).2[i]? =
              some { s with messages := s.messages.map (fun m =>
                if m.id = mid then { m with imageUrl := none } else m) })) ∧
    (∀ item, gallery.find? (fun g => g.id == itemId) = some item →
        (strTruthy item.sessionId = none ∨ strTruthy item.messageId = none) →
        (deleteFromGallery gallery sessions itemId).2 = sessions) ∧
    (gallery.find? (fun g => g.id == itemId) = none →
        (deleteFromGallery gallery sessions itemId).2 = sessions) := by
  have hg : (deleteFromGallery gallery sessions itemId).1 =
      gallery.filter (fun g => !(g.id == itemId)) := by
    unfold deleteFromGallery
    dsimp only
    split
    · rfl
    · split <;> rfl
  refine ⟨?_, ?_, ?_, ?_, ?_, ?_⟩
  · intro g hgm
    rw [hg] at hgm
    have := List.mem_filter.1 hgm
    refine ⟨this.1, ?_⟩
    have hb := this.2
    simpa using hb
  · intro g hgm hne
    rw [hg]
    exact List.mem_filter.2 ⟨hgm, by simp [hne]⟩
  · rw [hg]
    exact List.filter_sublist gallery
  · intro item hfind sid mid hsid hmid
    have hr2 : (deleteFromGallery gallery sessions itemId).2 =
        sessions.map (fun session =>
          if session.id = sid then
            { session with messages := session.messages.map (fun m =>
                if m.id = mid then { m with imageUrl := none } else m) }
          else session) := by
      unfold deleteFromGallery
      dsimp only
      rw [hfind]
      dsimp only
      rw [hsid, hmid]
    refine ⟨by rw [hr2]; simp, ?_, ?_⟩
    · intro i s hi hne
      rw [hr2]
      simp [hi, hne]
    · intro i s hi heq
      rw [hr2]
      simp [hi, heq]
  · intro item hfind hnone
    unfold deleteFromGallery
    dsimp only
    rw [hfind]
    dsimp only
    rcases hnone with hn | hn
    · rw [hn]
    · rw [hn]
      cases strTruthy item.sessionId <;> rfl
  · intro hfind
    unfold deleteFromGallery
    dsimp only
    rw [hfind]

/-- Witness for C8: deleting a linked gallery item blanks the linked
image of the linked message in the linked session. -/
theorem deleteFromGallery_frame_witness :
    (deleteFromGallery [itemW] [sessX] "g1").2[0]? =
      some { sessX with messages := sessX.messages.map (fun m =>
        if m.id = "m1" then { m with imageUrl := none } else m) } :=
  ((deleteFromGallery_frame [itemW] [sessX] "g1").2.2.2.1 itemW (by decide)
    "s1" "m1" (by decide) (by decide)).2.2 0 sessX rfl rfl

lemma handleSendStart_load_inv (t1 t2 : Nat) (st : UState)
    (hinv : st.isLoading = st.inflight.isSome) :
    (handleSendStart t1 t2 st).1.isLoading =
      (handleSendStart t1 t2 st).1.inflight.isSome := by
  unfold handleSendStart
  cases currentSession? st with
  | none => simpa using hinv
  | some cs =>
      dsimp only
      split
      · simpa using hinv
      · split
        · simpa using hinv
        · simp

lemma handleSendFinish_load_inv (outcome : ApiOutcome) (ex : String → String)
    (tR : Nat) (st : UState) (hinv : st.isLoading = st.inflight.isSome) :
    (handleSendFinish outcome ex tR st).isLoading =
      (handleSendFinish outcome ex tR st).inflight.isSome := by
  unfold handleSendFinish
  cases st.inflight with
  | none => exact hinv
  | some f =>
      cases outcome with
      | error => simp
      | ok text imageUrl =>
          dsimp only
          cases strTruthy imageUrl <;> simp

lemma handleSendFinish_clears_inflight (outcome : ApiOutcome)
    (ex : String → String) (tR : Nat) (st : UState) (f : InFlight)
    (hf : st.inflight = some f) :
    (handleSendFinish outcome ex tR st).inflight = none := by
  unfold handleSendFinish
  rw [hf]
  cases outcome with
  | error => rfl
  | ok text imageUrl =>
      dsimp only
      cases strTruthy imageUrl <;> rfl

lemma step_load_inv {ex : String → String} {st st' : UState} {e : Event}
    (h : step ex st e = some st')
    (hinv : st.isLoading = st.inflight.isSome) :
    st'.isLoading = st'.inflight.isSome := by
  cases e with
  | setInput s =>
      by_cases hL : st.isLoading
      · simp [step, hL] at h
      · simp [step, hL] at h
        rw [← h]
        simpa [hL] using hinv
  | pickImage img =>
      by_cases hL : st.isLoading
      · simp [step, hL] at h
      · simp [step, hL] at h
        rw [← h]
        simpa [hL] using hinv
  | removeImage =>
      simp [step] at h
      rw [← h]
      simpa using hinv
  | clickSend t1 t2 =>
      by_cases hL : st.isLoading
      · simp [step, hL] at h
      · simp [step, hL] at h
        rw [← h]
        exact handleSendStart_load_inv t1 t2 st hinv
  | apiReturn outcome tR =>
      by_cases hI : st.inflight.isSome
      · simp [step, hI] at h
        rw [← h]
        exact handleSendFinish_load_inv outcome ex tR st hinv
      · simp [step, hI] at h
  | newSession now =>
      simp [step] at h
      rw [← h]
      simpa using hinv
  | switchTo id =>
      simp [step] at h
      rw [← h]
      simpa using hinv
  | delSession id now =>
      simp [step] at h
      rw [← h]
      simpa using hinv
  | delGallery id =>
      simp [step] at h
      rw [← h]
      simpa using hinv

lemma reachable_load_inv {ex : String → String} {st : UState}
    (h : Reachable ex st) : st.isLoading = st.inflight.isSome := by
  induction h with
  | init t0 => rfl
  | next _ hstep ih => exact step_load_inv hstep ih

/-- C6: in every reachable state there is at most one pending
`generateEditedImage` call: `isLoading` is exactly the flag of a pending
call (set before the call starts, cleared when it resolves or throws);
while it is set, the send button, the upload button and the text area are
disabled (their events are not enabled); and no enabled event started from
a state with a pending call creates a new one — the pending call either
stays the same or completes. -/
theorem single_call_in_flight (ex : String → String) (st : UState)
    (h : Reachable ex st) :
    (st.isLoading = st.inflight.isSome) ∧
    (st.isLoading = true →
      (∀ t1 t2, step ex st (Event.clickSend t1 t2) = none) ∧
      (∀ s, step ex st (Event.setInput s) = none) ∧
      (∀ img, step ex st (Event.pickImage img) = none)) ∧
    (∀ e st', step ex st e = some st' → st.inflight.isSome = true →
        st'.inflight = st.inflight ∨ st'.inflight = none) := by
  have hinv := reachable_load_inv h
  refine ⟨hinv,
    fun hL => ⟨fun t1 t2 => by simp [step, hL], fun s => by simp [step, hL],
      fun img => by simp [step, hL]⟩, ?_⟩
  intro e st' hstep hfl
  have hL : st.isLoading = true := by rw [hinv, hfl]
  cases e with
  | setInput s => simp [step, hL] at hstep
  | pickImage img => simp [step, hL] at hstep
  | clickSend t1 t2 => simp [step, hL] at hstep
  | removeImage =>
      simp [step] at hstep
      rw [← hstep]
      exact Or.inl rfl
  | apiReturn outcome tR =>
      refine Or.inr ?_
      simp [step, hfl] at hstep
      rw [← hstep]
      obtain ⟨f, hf⟩ := Option.isSome_iff_exists.1 hfl
      exact handleSendFinish_clears_inflight outcome ex tR st f hf
  | newSession now =>
      simp [step] at hstep
      rw [← hstep]
      exact Or.inl rfl
  | switchTo id =>
      simp [step] at hstep
      rw [← hstep]
      exact Or.inl rfl
  | delSession id now =>
      simp [step] at hstep
      rw [← hstep]
      exact Or.inl rfl
  | delGallery id =>
      simp [step] at hstep
      rw [← hstep]
      exact Or.inl rfl

/-- Witness for C6 at the initial state. -/
theorem single_call_in_flight_witness :
    ((initState 0).isLoading = (initState 0).inflight.isSome) ∧
    ((initState 0).isLoading = true →
      (∀ t1 t2, step exW (initState 0) (Event.clickSend t1 t2) = none) ∧
      (∀ s, step exW (initState 0) (Event.setInput s) = none) ∧
      (∀ img, step exW (initState 0) (Event.pickImage img) = none)) ∧
    (∀ e st', step exW (initState 0) e = some st' →
        (initState 0).inflight.isSome = true →
        st'.inflight = (initState 0).inflight ∨ st'.inflight = none) :=
  single_call_in_flight exW (initState 0) (Reachable.init 0)

end ReChange
